import Mathlib

/-!
Verification of the layout-reconstruction engine of an image-to-presentation
converter (`src/services/pptService.ts`).  The engine takes, per source image,
a list of detected text elements (normalized 0-1000 regions plus style hints)
and emits one slide: a full-canvas background object followed by one styled
text box per element.  Numbers are modelled as rationals, strings as lists of
characters, and the JavaScript-specific behaviours that matter (truthiness of
numbers and strings, `parseInt` prefix parsing, `String.replace` of the first
occurrence only) are modelled explicitly.
-/

/-! ## Color machinery (`cleanHex` in `pptService.ts`) -/

/-- Whitespace recognized by JavaScript trimming and `parseInt`, by code point
(space, tab, line feed, carriage return, vertical tab, form feed). -/
def isWs (c : Char) : Bool :=
  c.toNat = 32 || c.toNat = 9 || c.toNat = 10 || c.toNat = 13 || c.toNat = 11 || c.toNat = 12

/-- Value of one hexadecimal digit (`0`-`9`, `a`-`f`, `A`-`F`), by code point. -/
def hexDigitVal (c : Char) : Option Nat :=
  if 48 ≤ c.toNat ∧ c.toNat ≤ 57 then some (c.toNat - 48)
  else if 97 ≤ c.toNat ∧ c.toNat ≤ 102 then some (c.toNat - 87)
  else if 65 ≤ c.toNat ∧ c.toNat ≤ 70 then some (c.toNat - 55)
  else none

/-- JavaScript `str.replace('#', '')`: removes only the first occurrence. -/
def removeFirstHash : List Char → List Char
  | [] => []
  | c :: cs => if c = '#' then cs else c :: removeFirstHash cs

/-- JavaScript `String.prototype.trim`: drop whitespace at both ends. -/
def trimJS (s : List Char) : List Char :=
  ((s.dropWhile isWs).reverse.dropWhile isWs).reverse

/-- Shorthand expansion `clean.split('').map(c => c + c).join('')`. -/
def expand3 : List Char → List Char
  | [] => []
  | c :: cs => c :: c :: expand3 cs

/-- The cleaned string of `cleanHex`: strip the first `#`, trim, and double a
3-character shorthand. -/
def normalizeHex (s : List Char) : List Char :=
  if (trimJS (removeFirstHash s)).length = 3 then expand3 (trimJS (removeFirstHash s))
  else trimJS (removeFirstHash s)

/-- JavaScript `str.substring(a, b)` (for `a ≤ b`): clamps to the length. -/
def substringJS (s : List Char) (a b : Nat) : List Char := (s.take b).drop a

/-- Maximal leading run of hexadecimal digits, as consumed by `parseInt`. -/
def takeHexDigits (s : List Char) : List Char := s.takeWhile (fun c => (hexDigitVal c).isSome)

/-- Value of a digit run, most significant first. -/
def hexValue (ds : List Char) : Int :=
  ds.foldl (fun a c => 16 * a + (((hexDigitVal c).getD 0 : Nat) : Int)) 0

/-- Sign consumed by `parseInt` (a leading `-`). -/
def parseSign (s : List Char) : Int := if s.head? = some '-' then -1 else 1

/-- Strip one leading `-` or `+` as `parseInt` does. -/
def stripSign (s : List Char) : List Char :=
  if s.head? = some '-' ∨ s.head? = some '+' then s.tail else s

/-- Strip one leading `0x`/`0X` as `parseInt` with radix 16 does. -/
def strip0x (s : List Char) : List Char :=
  if s.head? = some '0' ∧ (s.tail.head? = some 'x' ∨ s.tail.head? = some 'X') then
    s.tail.tail
  else s

/-- JavaScript `parseInt(s, 16)`: skip whitespace, optional sign, optional
`0x`, then the maximal run of hexadecimal digits; `none` models `NaN`. -/
def parseInt16 (s : List Char) : Option Int :=
  if takeHexDigits (strip0x (stripSign (s.dropWhile isWs))) = [] then none
  else some (parseSign (s.dropWhile isWs) *
    hexValue (takeHexDigits (strip0x (stripSign (s.dropWhile isWs)))))

/-- Red channel `parseInt(clean.substring(0, 2), 16)`. -/
def chanR (s : List Char) : Option Int := parseInt16 (substringJS (normalizeHex s) 0 2)

/-- Green channel `parseInt(clean.substring(2, 4), 16)`. -/
def chanG (s : List Char) : Option Int := parseInt16 (substringJS (normalizeHex s) 2 4)

/-- Blue channel `parseInt(clean.substring(4, 6), 16)`. -/
def chanB (s : List Char) : Option Int := parseInt16 (substringJS (normalizeHex s) 4 6)

/-- The `cleanHex` helper of `pptService.ts`: clean the string, parse the three
channels, return black when a channel is `NaN`, snap near-white to `FFFFFF`
and near-black to `000000`, otherwise return the cleaned string.  The `none`
and empty-string cases model the JavaScript `if (!hex)` guard. -/
def cleanHex : Option (List Char) → List Char
  | none => "000000".toList
  | some hx =>
    if hx = [] then "000000".toList
    else if chanR hx = none ∨ chanG hx = none ∨ chanB hx = none then "000000".toList
    else if 240 < (chanR hx).getD 0 ∧ 240 < (chanG hx).getD 0 ∧ 240 < (chanB hx).getD 0 then
      "FFFFFF".toList
    else if (chanR hx).getD 0 < 15 ∧ (chanG hx).getD 0 < 15 ∧ (chanB hx).getD 0 < 15 then
      "000000".toList
    else normalizeHex hx

/-! ## Data model (`types.ts`) -/

inductive FontFamily
  | serif
  | sansSerif
  | monospace
  | handwriting
deriving DecidableEq

inductive FontWeight
  | bold
  | normal
deriving DecidableEq

inductive FontStyle
  | italic
  | normal
deriving DecidableEq

inductive TextAlign
  | left
  | center
  | right
deriving DecidableEq

/-- One detected text element (`DetectedTextElement` in `types.ts`).  The
`box_2d` tuple is `(ymin, xmin, ymax, xmax)` on the 0-1000 scale. -/
structure DetectedTextElement where
  text : List Char
  box_2d : ℚ × ℚ × ℚ × ℚ
  textColor : List Char
  hasContainer : Bool
  containerColor : Option (List Char)
  containerOpacity : Option ℚ
  strokeColor : Option (List Char)
  fontSize : ℚ
  fontFamily : FontFamily
  fontWeight : FontWeight
  fontStyle : FontStyle
  isTitle : Bool
  alignment : TextAlign
deriving DecidableEq

inductive Status
  | pending
  | processing
  | completed
  | error
deriving DecidableEq

/-- One uploaded image with its processing result (`ProcessedImage` in
`types.ts`), restricted to the fields the engine reads. -/
structure ProcessedImage where
  status : Status
  width : ℚ
  height : ℚ
  elements : Option (List DetectedTextElement)
deriving DecidableEq

/-! ## Geometry and styling -/

/-- Absolute geometry of one box on the canvas, in inches. -/
structure BoxGeom where
  x : ℚ
  y : ℚ
  w : ℚ
  h : ℚ
deriving DecidableEq

/-- Scale every component of a geometry by `c`. -/
def scaleGeom (c : ℚ) (g : BoxGeom) : BoxGeom := ⟨c * g.x, c * g.y, c * g.w, c * g.h⟩

/-- Projection of a `(ymin, xmin, ymax, xmax)` region on the 0-1000 scale onto
a canvas of the given width and height (`pptService.ts` lines 146-151). -/
def projectRegion : ℚ × ℚ × ℚ × ℚ → ℚ → ℚ → BoxGeom
  | (ymin, xmin, ymax, xmax), W, H =>
    ⟨xmin / 1000 * W, ymin / 1000 * H, (xmax - xmin) / 1000 * W, (ymax - ymin) / 1000 * H⟩

/-- Conditional inflation (`pptService.ts` lines 159-187): a container box is
padded by `max(0.05, 5% of w)` horizontally and `max(0.02, 5% of h)`
vertically on each side; a raw text box is scaled by 5% in both dimensions. -/
def inflate (hasContainer : Bool) (g : BoxGeom) : BoxGeom :=
  if hasContainer then
    let padX := max (5 / 100 : ℚ) (g.w * (5 / 100))
    let padY := max (2 / 100 : ℚ) (g.h * (5 / 100))
    ⟨g.x - padX, g.y - padY, g.w + padX * 2, g.h + padY * 2⟩
  else
    ⟨g.x, g.y, g.w * (105 / 100), g.h * (105 / 100)⟩

/-- Font face mapping (`getFontMap`). -/
def getFontMap : FontFamily → List Char
  | .serif => "Times New Roman".toList
  | .monospace => "Courier New".toList
  | .handwriting => "Segoe Print".toList
  | .sansSerif => "Arial".toList

/-- Number of text lines: `el.text.split('\n').length`. -/
def linesOf (t : List Char) : Nat := 1 + t.countP (fun c => c = '\n')

/-- The `calculateFontSize` helper: convert box height to points, divide by
the line count, scale by a fill ratio (0.70 for containers, 0.85 for raw
text), shrink bold text by 5%, and clamp to a 9 pt minimum. -/
def calculateFontSize (el : DetectedTextElement) (boxHeightInInches : ℚ) : ℚ :=
  let boxHeightPoints := boxHeightInInches * 72
  let lines : ℚ := (linesOf el.text : ℚ)
  let heightPerLine := boxHeightPoints / lines
  let fillRatio : ℚ := if el.hasContainer then 70 / 100 else 85 / 100
  let base := heightPerLine * fillRatio
  let sized := if el.fontWeight = FontWeight.bold then base * (95 / 100) else base
  max 9 sized

structure FillProps where
  color : List Char
  transparency : ℚ
deriving DecidableEq

structure LineProps where
  color : List Char
  width : ℚ
  transparency : ℚ
deriving DecidableEq

structure ShadowProps where
  color : List Char
  opacity : ℚ
  blur : ℚ
  offset : ℚ
deriving DecidableEq

structure OutlineProps where
  color : List Char
  size : ℚ
deriving DecidableEq

/-- Fill of a container text box (`pptService.ts` lines 170-178): color
`cleanHex(el.containerColor) || "FFFFFF"` (the `if c = []` branch models the
JavaScript `||` falsiness fallback on the empty string) and transparency
`(1 - containerOpacity) * 100` when the opacity is present, else `0`. -/
def fillPropsOf (el : DetectedTextElement) : Option FillProps :=
  if el.hasContainer then
    let opacity : ℚ := match el.containerOpacity with
      | some o => (1 - o) * 100
      | none => 0
    let c := cleanHex el.containerColor
    some ⟨if c = [] then "FFFFFF".toList else c, opacity⟩
  else none

/-- Text outline (`pptService.ts` lines 224-226): attached only when
`el.strokeColor` is truthy, i.e. present and non-empty. -/
def outlineOf (el : DetectedTextElement) : Option OutlineProps :=
  match el.strokeColor with
  | some s => if s = [] then none else some ⟨cleanHex (some s), 3 / 4⟩
  | none => none

/-- The option bag passed to `slide.addText`. -/
structure TextOptions where
  x : ℚ
  y : ℚ
  w : ℚ
  h : ℚ
  fontSize : ℚ
  color : List Char
  align : TextAlign
  fontFace : List Char
  margin : ℚ
  wrap : Bool
  bold : Bool
  italic : Bool
  shape : Bool
  rectRadius : Option ℚ
  fill : Option FillProps
  line : Option LineProps
  shadow : Option ShadowProps
  outline : Option OutlineProps
deriving DecidableEq

/-- One renderable object on a slide: the stretched background image (with the
layout dimensions used by its `sizing` option) or a text box. -/
inductive SlideObject
  | background (w h : ℚ)
  | textBox (text : List Char) (opts : TextOptions)
deriving DecidableEq

/-- Build the text box for one element (`pptService.ts` lines 145-235):
project the region, inflate it, compute the font size from the final height,
and resolve all styling. -/
def buildTextBox (W H : ℚ) (el : DetectedTextElement) : SlideObject :=
  let g := inflate el.hasContainer (projectRegion el.box_2d W H)
  SlideObject.textBox el.text
    { x := g.x
      y := g.y
      w := g.w
      h := g.h
      fontSize := calculateFontSize el g.h
      color := cleanHex (some el.textColor)
      align := el.alignment
      fontFace := getFontMap el.fontFamily
      margin := if el.hasContainer then 2 else 0
      wrap := true
      bold := el.fontWeight = FontWeight.bold
      italic := el.fontStyle = FontStyle.italic
      shape := el.hasContainer
      rectRadius := if el.hasContainer then some (1 / 10) else none
      fill := fillPropsOf el
      line := if el.hasContainer then some ⟨"888888".toList, 1 / 2, 50⟩ else none
      shadow := if el.hasContainer then some ⟨"000000".toList, 3 / 10, 3, 2⟩ else none
      outline := outlineOf el }

/-- Build one slide: the background is added first (`slide.addImage`), then
the loop over `imgData.elements` appends one text box per element in order. -/
def generateSlide (W H : ℚ) (els : List DetectedTextElement) : List SlideObject :=
  els.foldl (fun s el => s ++ [buildTextBox W H el]) [SlideObject.background W H]

/-! ## Batch pipeline (`generatePPT`) -/

/-- The fixed canvas width `SLIDE_WIDTH_IN = 10`. -/
def SLIDE_WIDTH_IN : ℚ := 10

/-- Canvas height for given source pixel dimensions:
`SLIDE_WIDTH_IN / (width / height)` (`pptService.ts` lines 111-112). -/
def computeCanvasHeight (w h : ℚ) : ℚ := SLIDE_WIDTH_IN / (w / h)

/-- The validity filter
`processedImages.filter(i => i.status === 'completed' && i.width && i.height)`;
a JavaScript number is truthy exactly when it is neither zero nor `NaN`. -/
def isValidImage (i : ProcessedImage) : Bool :=
  decide (i.status = Status.completed) && decide (i.width ≠ 0) && decide (i.height ≠ 0)

/-- The whole presentation: one layout plus the slides. -/
structure Pptx where
  layoutW : ℚ
  layoutH : ℚ
  slides : List (List SlideObject)
deriving DecidableEq

/-- The `generatePPT` pipeline: keep the valid images, abort with no output
when none remain, derive the single layout from the FIRST valid image, and
emit one slide per valid image that has an element list (the loop skips
images whose `elements` field is absent before adding a slide). -/
def generatePPT (imgs : List ProcessedImage) : Option Pptx :=
  match imgs.filter isValidImage with
  | [] => none
  | first :: rest =>
    some ⟨SLIDE_WIDTH_IN, computeCanvasHeight first.width first.height,
      ((first :: rest).filterMap (fun i => i.elements)).map
        (generateSlide SLIDE_WIDTH_IN (computeCanvasHeight first.width first.height))⟩

/-! ## Concrete sample inputs for witnesses and counterexamples -/

/-- A minimal raw-text element: single-character text, no container. -/
def sampleElement : DetectedTextElement :=
  { text := "A".toList
    box_2d := (100, 0, 200, 1000)
    textColor := "000000".toList
    hasContainer := false
    containerColor := none
    containerOpacity := none
    strokeColor := none
    fontSize := 0
    fontFamily := FontFamily.sansSerif
    fontWeight := FontWeight.normal
    fontStyle := FontStyle.normal
    isTitle := false
    alignment := TextAlign.left }

/-- A container element with no detected container color. -/
def elContainerNoColor : DetectedTextElement := { sampleElement with hasContainer := true }

/-- Completed 2:1 image with an empty element list (own canvas height 5). -/
def imgHalf : ProcessedImage := ⟨Status.completed, 2, 1, some []⟩

/-- Completed 1:1 image carrying one element (own canvas height 10). -/
def imgSquare : ProcessedImage := ⟨Status.completed, 1, 1, some [sampleElement]⟩

/-- Completed 4:1 image with an empty element list (own canvas height 5/2). -/
def imgQuarter : ProcessedImage := ⟨Status.completed, 4, 1, some []⟩

/-- Completed image with zero pixel width. -/
def imgZeroWidth : ProcessedImage := ⟨Status.completed, 0, 100, some []⟩

/-- Completed image with a negative pixel width. -/
def imgNegWidth : ProcessedImage := ⟨Status.completed, -1920, 1080, some []⟩

/-! ## Helper lemmas -/

/-- The line count is always positive. -/
lemma linesOf_pos (t : List Char) : (0 : ℚ) < (linesOf t : ℚ) := by
  have h : 0 < linesOf t := by unfold linesOf; omega
  exact_mod_cast h

/-- Appending one mapped element at a time is mapping. -/
lemma foldl_append_map (f : DetectedTextElement → SlideObject) (els : List DetectedTextElement) :
    ∀ init : List SlideObject,
      els.foldl (fun s el => s ++ [f el]) init = init ++ els.map f := by
  induction els with
  | nil => intro init; simp
  | cons a t ih => intro init; simp [ih]

/-- Closed form of `calculateFontSize`. -/
lemma calculateFontSize_eq (el : DetectedTextElement) (hgt : ℚ) :
    calculateFontSize el hgt =
      max 9 (hgt * 72 / (linesOf el.text : ℚ) *
        (if el.hasContainer = true then (70 : ℚ) / 100 else 85 / 100) *
        (if el.fontWeight = FontWeight.bold then (95 : ℚ) / 100 else 1)) := by
  by_cases hb : el.fontWeight = FontWeight.bold <;>
    by_cases hc : el.hasContainer = true <;>
      simp [calculateFontSize, hb, hc]

/-! ## Claims C7 and C8 -/

/-- Claim C7: the projection of a region with `right > left` and
`bottom > top` onto a positive canvas equals the linear formulas
`x = left/1000·W`, `y = top/1000·H`, `w = (right-left)/1000·W`,
`h = (bottom-top)/1000·H`; the projected width and height are positive, and
scaling the region scales the projected geometry proportionally. -/
theorem c7_projectRegion_linear (t l b r W H c : ℚ) (hW : 0 < W) (hH : 0 < H)
    (hlr : l < r) (htb : t < b) :
    projectRegion (t, l, b, r) W H =
      ⟨l / 1000 * W, t / 1000 * H, (r - l) / 1000 * W, (b - t) / 1000 * H⟩ ∧
    0 < (projectRegion (t, l, b, r) W H).w ∧
    0 < (projectRegion (t, l, b, r) W H).h ∧
    projectRegion (c * t, c * l, c * b, c * r) W H =
      scaleGeom c (projectRegion (t, l, b, r) W H) := by
  refine ⟨rfl, ?_, ?_, ?_⟩
  · show 0 < (r - l) / 1000 * W
    have hrl : 0 < r - l := by linarith
    positivity
  · show 0 < (b - t) / 1000 * H
    have hbt : 0 < b - t := by linarith
    positivity
  · simp only [projectRegion, scaleGeom, BoxGeom.mk.injEq]
    refine ⟨by ring, by ring, by ring, by ring⟩

/-- Claim C7 witness at the region `(100, 100, 300, 400)` on a 10 × 5 canvas
with scale factor 2. -/
theorem c7_projectRegion_linear_witness :
    projectRegion (100, 100, 300, 400) 10 5 =
      ⟨100 / 1000 * 10, 100 / 1000 * 5, (400 - 100) / 1000 * 10, (300 - 100) / 1000 * 5⟩ ∧
    0 < (projectRegion (100, 100, 300, 400) 10 5).w ∧
    0 < (projectRegion (100, 100, 300, 400) 10 5).h ∧
    projectRegion (2 * 100, 2 * 100, 2 * 300, 2 * 400) 10 5 =
      scaleGeom 2 (projectRegion (100, 100, 300, 400) 10 5) :=
  c7_projectRegion_linear 100 100 300 400 10 5 2 (by decide) (by decide) (by decide) (by decide)

/-- Claim C8: for a box with positive width and height, container inflation
strictly increases both dimensions, non-container inflation strictly increases
both dimensions, and the non-container result stays strictly below the
container result in both dimensions (a smaller inflation factor). -/
theorem c8_inflation_strict (g : BoxGeom) (hw : 0 < g.w) (hh : 0 < g.h) :
    g.w < (inflate true g).w ∧ g.h < (inflate true g).h ∧
    g.w < (inflate false g).w ∧ g.h < (inflate false g).h ∧
    (inflate false g).w < (inflate true g).w ∧
    (inflate false g).h < (inflate true g).h := by
  have hpx : g.w * (5 / 100) ≤ max (5 / 100 : ℚ) (g.w * (5 / 100)) := le_max_right _ _
  have hpx' : (5 / 100 : ℚ) ≤ max (5 / 100 : ℚ) (g.w * (5 / 100)) := le_max_left _ _
  have hpy : g.h * (5 / 100) ≤ max (2 / 100 : ℚ) (g.h * (5 / 100)) := le_max_right _ _
  have hpy' : (2 / 100 : ℚ) ≤ max (2 / 100 : ℚ) (g.h * (5 / 100)) := le_max_left _ _
  have e1 : inflate true g =
      ⟨g.x - max (5 / 100) (g.w * (5 / 100)), g.y - max (2 / 100) (g.h * (5 / 100)),
        g.w + max (5 / 100) (g.w * (5 / 100)) * 2,
        g.h + max (2 / 100) (g.h * (5 / 100)) * 2⟩ := rfl
  have e2 : inflate false g = ⟨g.x, g.y, g.w * (105 / 100), g.h * (105 / 100)⟩ := rfl
  rw [e1, e2]
  refine ⟨by linarith, by linarith, by nlinarith, by nlinarith, by nlinarith, by nlinarith⟩

/-- Claim C8 witness at the unit box placed at the origin. -/
theorem c8_inflation_strict_witness :
    (1 : ℚ) < (inflate true ⟨0, 0, 1, 1⟩).w ∧ (1 : ℚ) < (inflate true ⟨0, 0, 1, 1⟩).h ∧
    (1 : ℚ) < (inflate false ⟨0, 0, 1, 1⟩).w ∧ (1 : ℚ) < (inflate false ⟨0, 0, 1, 1⟩).h ∧
    (inflate false ⟨0, 0, 1, 1⟩).w < (inflate true ⟨0, 0, 1, 1⟩).w ∧
    (inflate false ⟨0, 0, 1, 1⟩).h < (inflate true ⟨0, 0, 1, 1⟩).h :=
  c8_inflation_strict ⟨0, 0, 1, 1⟩ (by decide) (by decide)

/-- Bold shrinking never increases the clamped size, whatever the sign of the
unclamped size. -/
lemma max9_bold (x : ℚ) : max 9 (x * (95 / 100)) ≤ max 9 x := by
  rcases le_or_lt 0 x with hx | hx
  · exact max_le_max le_rfl (by nlinarith)
  · rw [max_eq_left (by nlinarith), max_eq_left (by nlinarith)]

/-- Claim C5: `calculateFontSize` is monotone non-decreasing in box height for
a fixed element, non-increasing in line count for a fixed box height, the bold
variant never exceeds the otherwise-identical non-bold variant, the result
never falls below the 9 pt minimum, and no upper bound is enforced (the result
reaches any target `M` at a suitable box height). -/
theorem c5_fontSize_props (el : DetectedTextElement) (hgt h1 h2 : ℚ) (t1 t2 : List Char) :
    (h1 ≤ h2 → calculateFontSize el h1 ≤ calculateFontSize el h2) ∧
    (0 ≤ hgt → linesOf t1 ≤ linesOf t2 →
      calculateFontSize { el with text := t2 } hgt ≤
        calculateFontSize { el with text := t1 } hgt) ∧
    calculateFontSize { el with fontWeight := FontWeight.bold } hgt ≤
      calculateFontSize { el with fontWeight := FontWeight.normal } hgt ∧
    9 ≤ calculateFontSize el hgt ∧
    (∀ M : ℚ, M ≤ calculateFontSize el (M * (linesOf el.text : ℚ))) := by
  obtain ⟨text, box, tc, hasC, cc, co, sc, fs, ff, fw, fst, it, al⟩ := el
  have hL : (0 : ℚ) < (linesOf text : ℚ) := linesOf_pos text
  have hR0 : (0 : ℚ) ≤ (if hasC = true then (70 : ℚ) / 100 else 85 / 100) := by
    split <;> norm_num
  have hR7 : (7 : ℚ) / 10 ≤ (if hasC = true then (70 : ℚ) / 100 else 85 / 100) := by
    split <;> norm_num
  have hB0 : (0 : ℚ) ≤ (if fw = FontWeight.bold then (95 : ℚ) / 100 else 1) := by
    split <;> norm_num
  have hB19 : (19 : ℚ) / 20 ≤ (if fw = FontWeight.bold then (95 : ℚ) / 100 else 1) := by
    split <;> norm_num
  refine ⟨?_, ?_, ?_, ?_, ?_⟩
  · intro h12
    rw [calculateFontSize_eq, calculateFontSize_eq]
    apply max_le_max le_rfl
    apply mul_le_mul_of_nonneg_right _ hB0
    apply mul_le_mul_of_nonneg_right _ hR0
    exact (div_le_div_iff_of_pos_right hL).mpr (by linarith)
  · intro hgt0 hlines
    rw [calculateFontSize_eq, calculateFontSize_eq]
    dsimp only
    apply max_le_max le_rfl
    apply mul_le_mul_of_nonneg_right _ hB0
    apply mul_le_mul_of_nonneg_right _ hR0
    rw [div_le_div_iff₀ (linesOf_pos t2) (linesOf_pos t1)]
    exact mul_le_mul_of_nonneg_left (Nat.cast_le.mpr hlines) (by linarith)
  · rw [calculateFontSize_eq, calculateFontSize_eq]
    dsimp only
    have e1 : (if FontWeight.bold = FontWeight.bold then (95 : ℚ) / 100 else 1) = 95 / 100 := by
      simp
    have e2 : (if FontWeight.normal = FontWeight.bold then (95 : ℚ) / 100 else 1) = 1 := by
      simp
    rw [e1, e2, mul_one]
    exact max9_bold _
  · rw [calculateFontSize_eq]
    exact le_max_left 9 _
  · intro M
    rw [calculateFontSize_eq]
    dsimp only
    have hdiv : M * (linesOf text : ℚ) * 72 / (linesOf text : ℚ) = M * 72 := by
      field_simp
      ring
    rw [hdiv]
    rcases le_or_lt 0 M with hM | hM
    · have hRB : (7 : ℚ) / 10 * (19 / 20) ≤
          (if hasC = true then (70 : ℚ) / 100 else 85 / 100) *
            (if fw = FontWeight.bold then (95 : ℚ) / 100 else 1) := by
        apply mul_le_mul hR7 hB19 (by norm_num) (le_trans (by norm_num) hR7)
      have step : M ≤ M * 72 *
          ((if hasC = true then (70 : ℚ) / 100 else 85 / 100) *
            (if fw = FontWeight.bold then (95 : ℚ) / 100 else 1)) := by
        nlinarith
      calc M ≤ _ := step
        _ = M * 72 * (if hasC = true then (70 : ℚ) / 100 else 85 / 100) *
            (if fw = FontWeight.bold then (95 : ℚ) / 100 else 1) := by ring
        _ ≤ _ := le_max_right 9 _
    · exact le_trans (by linarith) (le_max_left 9 _)

/-- Claim C5 witness: concrete monotonicity, line-count, bold, minimum and
unboundedness instances at the sample element. -/
theorem c5_fontSize_props_witness :
    calculateFontSize sampleElement 1 ≤ calculateFontSize sampleElement 2 ∧
    calculateFontSize { sampleElement with text := "A\nB".toList } 1 ≤
      calculateFontSize { sampleElement with text := "A".toList } 1 ∧
    calculateFontSize { sampleElement with fontWeight := FontWeight.bold } 1 ≤
      calculateFontSize { sampleElement with fontWeight := FontWeight.normal } 1 ∧
    9 ≤ calculateFontSize sampleElement 1 ∧
    12 ≤ calculateFontSize sampleElement (12 * (linesOf sampleElement.text : ℚ)) := by
  have k := c5_fontSize_props sampleElement 1 1 2 "A".toList "A\nB".toList
  exact ⟨k.1 (by norm_num), k.2.1 (by norm_num) (by decide), k.2.2.1, k.2.2.2.1,
    k.2.2.2.2 12⟩

/-- Claim C6: a generated slide is the full-canvas background object followed
by exactly one text box per input element in input order: the slide list
equals background-cons-map, its length is the element count plus one, index 0
is the background, and index `i + 1` is the text box of element `i`. -/
theorem c6_slide_order (W H : ℚ) (els : List DetectedTextElement) :
    generateSlide W H els = SlideObject.background W H :: els.map (buildTextBox W H) ∧
    (generateSlide W H els).length = els.length + 1 ∧
    (generateSlide W H els)[0]? = some (SlideObject.background W H) ∧
    ∀ i, i < els.length →
      (generateSlide W H els)[i + 1]? = (els[i]?).map (buildTextBox W H) := by
  have key : generateSlide W H els =
      SlideObject.background W H :: els.map (buildTextBox W H) := by
    unfold generateSlide
    rw [foldl_append_map]
    simp
  refine ⟨key, by rw [key]; simp, by rw [key]; simp, ?_⟩
  intro i hi
  rw [key]
  simp

/-- Claim C6 witness: the slide for a single sample element on a 10 × 5
canvas, with the indexed form instantiated at `i = 0`. -/
theorem c6_slide_order_witness :
    generateSlide 10 5 [sampleElement] =
      SlideObject.background 10 5 :: [sampleElement].map (buildTextBox 10 5) ∧
    (generateSlide 10 5 [sampleElement])[0 + 1]? =
      ([sampleElement][0]?).map (buildTextBox 10 5) := by
  have k := c6_slide_order 10 5 [sampleElement]
  exact ⟨k.1, k.2.2.2 0 (by decide)⟩

/-- Claim C3: with a container and no detected container color the emitted
fill color is black `000000`, not the white default the design asks for: the
`|| "FFFFFF"` fallback is dead because `cleanHex(undefined)` already returns
the truthy string `"000000"`.  The transparency rule itself is as specified:
`0` when the opacity is absent and `(1 - opacity) * 100` when present. -/
theorem c3_containerFill_black_not_white :
    fillPropsOf elContainerNoColor = some ⟨"000000".toList, 0⟩ ∧
    fillPropsOf { elContainerNoColor with containerOpacity := some (3 / 10) } =
      some ⟨"000000".toList, (1 - 3 / 10) * 100⟩ ∧
    (1 - (3 : ℚ) / 10) * 100 = 70 ∧
    "000000".toList ≠ "FFFFFF".toList := by
  refine ⟨by decide, by rfl, by norm_num, by decide⟩

/-- Claim C4 (amended): `cleanHex` is total and returns black `000000` for a
missing color and for every string one of whose three channel substrings
fails to parse (`parseInt` yields `NaN`). -/
theorem c4_unparseable_to_black (s : List Char)
    (hch : chanR s = none ∨ chanG s = none ∨ chanB s = none) :
    cleanHex (some s) = "000000".toList ∧ cleanHex none = "000000".toList := by
  refine ⟨?_, rfl⟩
  rcases eq_or_ne s [] with rfl | hs
  · rfl
  · simp only [cleanHex]
    rw [if_neg hs, if_pos hch]

/-- Claim C4 witness: `"zz"` has an unparseable red channel and resolves to
black. -/
theorem c4_unparseable_to_black_witness :
    cleanHex (some "zz".toList) = "000000".toList ∧ cleanHex none = "000000".toList :=
  c4_unparseable_to_black "zz".toList (Or.inl (by decide))

/-- Claim C4 counterexample: the five-hex-digit string `"abcde"` is not a 3-
or 6-digit hex color, yet `cleanHex` returns it verbatim instead of black,
because every channel substring (including the one-character `"e"`) parses. -/
theorem c4_counterexample :
    cleanHex (some "abcde".toList) = "abcde".toList ∧
    "abcde".toList ≠ "000000".toList := by
  refine ⟨by decide, by decide⟩

/-- Claim C10: the near-white and near-black snaps are unconditional: every
nonempty input whose three parsed channels all exceed 240 resolves to
`FFFFFF`, every one whose channels are all below 15 resolves to `000000`,
and in particular the valid 6-digit hex `FEFEFE` does not resolve to
itself. -/
theorem c10_snap_unconditional (s t : List Char) (r g b r2 g2 b2 : Int)
    (hs : s ≠ []) (hsr : chanR s = some r) (hsg : chanG s = some g) (hsb : chanB s = some b)
    (hbright : 240 < r ∧ 240 < g ∧ 240 < b)
    (ht : t ≠ []) (htr : chanR t = some r2) (htg : chanG t = some g2) (htb : chanB t = some b2)
    (hdark : r2 < 15 ∧ g2 < 15 ∧ b2 < 15) :
    cleanHex (some s) = "FFFFFF".toList ∧
    cleanHex (some t) = "000000".toList ∧
    cleanHex (some "FEFEFE".toList) = "FFFFFF".toList ∧
    cleanHex (some "FEFEFE".toList) ≠ "FEFEFE".toList := by
  refine ⟨?_, ?_, by decide, by decide⟩
  · have hvalid : ¬(chanR s = none ∨ chanG s = none ∨ chanB s = none) := by
      simp [hsr, hsg, hsb]
    have hcond : 240 < (chanR s).getD 0 ∧ 240 < (chanG s).getD 0 ∧ 240 < (chanB s).getD 0 := by
      simp only [hsr, hsg, hsb, Option.getD_some]
      exact hbright
    simp only [cleanHex]
    rw [if_neg hs, if_neg hvalid, if_pos hcond]
  · have hvalid : ¬(chanR t = none ∨ chanG t = none ∨ chanB t = none) := by
      simp [htr, htg, htb]
    have hnotbright :
        ¬(240 < (chanR t).getD 0 ∧ 240 < (chanG t).getD 0 ∧ 240 < (chanB t).getD 0) := by
      simp only [htr, htg, htb, Option.getD_some]
      rintro ⟨h1, h2, h3⟩
      omega
    have hcond : (chanR t).getD 0 < 15 ∧ (chanG t).getD 0 < 15 ∧ (chanB t).getD 0 < 15 := by
      simp only [htr, htg, htb, Option.getD_some]
      exact hdark
    simp only [cleanHex]
    rw [if_neg ht, if_neg hvalid, if_neg hnotbright, if_pos hcond]

/-- Claim C10 witness: `FAFAFA` (channels 250) snaps to white and `010101`
(channels 1) snaps to black. -/
theorem c10_snap_unconditional_witness :
    cleanHex (some "FAFAFA".toList) = "FFFFFF".toList ∧
    cleanHex (some "010101".toList) = "000000".toList ∧
    cleanHex (some "FEFEFE".toList) = "FFFFFF".toList ∧
    cleanHex (some "FEFEFE".toList) ≠ "FEFEFE".toList :=
  c10_snap_unconditional "FAFAFA".toList "010101".toList 250 250 250 1 1 1
    (by decide) (by decide) (by decide) (by decide) ⟨by decide, by decide, by decide⟩
    (by decide) (by decide) (by decide) (by decide) ⟨by decide, by decide, by decide⟩

/-- Characters with distinct code points are distinct. -/
lemma char_ne_of_toNat_ne {c d : Char} (h : c.toNat ≠ d.toNat) : c ≠ d :=
  fun he => h (congrArg Char.toNat he)

/-- A hexadecimal digit lies in one of the three code-point ranges. -/
lemma hexDigitVal_range (c : Char) (v : Nat) (h : hexDigitVal c = some v) :
    (48 ≤ c.toNat ∧ c.toNat ≤ 57) ∨ (97 ≤ c.toNat ∧ c.toNat ≤ 102) ∨
      (65 ≤ c.toNat ∧ c.toNat ≤ 70) := by
  unfold hexDigitVal at h
  split_ifs at h with h1 h2 h3
  · exact Or.inl h1
  · exact Or.inr (Or.inl h2)
  · exact Or.inr (Or.inr h3)

/-- A hexadecimal digit is not whitespace and is none of the marker characters
consumed by cleaning or by `parseInt`. -/
lemma hexDigit_char_facts (c : Char) (v : Nat) (h : hexDigitVal c = some v) :
    isWs c = false ∧ c ≠ '#' ∧ c ≠ '-' ∧ c ≠ '+' ∧ c ≠ 'x' ∧ c ≠ 'X' ∧
      (hexDigitVal c).isSome = true := by
  have hr := hexDigitVal_range c v h
  have e35 : ('#').toNat = 35 := rfl
  have e45 : ('-').toNat = 45 := rfl
  have e43 : ('+').toNat = 43 := rfl
  have e120 : ('x').toNat = 120 := rfl
  have e88 : ('X').toNat = 88 := rfl
  refine ⟨by simp [isWs]; omega, char_ne_of_toNat_ne (by rw [e35]; omega),
    char_ne_of_toNat_ne (by rw [e45]; omega), char_ne_of_toNat_ne (by rw [e43]; omega),
    char_ne_of_toNat_ne (by rw [e120]; omega), char_ne_of_toNat_ne (by rw [e88]; omega),
    by rw [h]; rfl⟩

/-- `dropWhile` is the identity on lists whose entries all fail the
predicate. -/
lemma dropWhile_eq_self_of_false (p : Char → Bool) (s : List Char)
    (h : ∀ c ∈ s, p c = false) : s.dropWhile p = s := by
  cases s with
  | nil => rfl
  | cons a t => simp [List.dropWhile_cons, h a (List.mem_cons_self a t)]

/-- Trimming is the identity on whitespace-free strings. -/
lemma trimJS_eq_self (s : List Char) (h : ∀ c ∈ s, isWs c = false) : trimJS s = s := by
  unfold trimJS
  rw [dropWhile_eq_self_of_false isWs s h,
    dropWhile_eq_self_of_false isWs s.reverse (fun c hc => h c (List.mem_reverse.mp hc)),
    List.reverse_reverse]

/-- Hash removal is the identity on hash-free strings. -/
lemma removeFirstHash_eq_self (s : List Char) (h : ∀ c ∈ s, c ≠ '#') :
    removeFirstHash s = s := by
  induction s with
  | nil => rfl
  | cons a t ih =>
    simp only [removeFirstHash]
    rw [if_neg (h a (List.mem_cons_self a t)), ih (fun c hc => h c (List.mem_cons_of_mem a hc))]

/-- Cleaning leaves a six-character hash-free whitespace-free string
unchanged. -/
lemma normalizeHex_six (c0 c1 c2 c3 c4 c5 : Char)
    (h : ∀ c ∈ [c0, c1, c2, c3, c4, c5], isWs c = false ∧ c ≠ '#') :
    normalizeHex [c0, c1, c2, c3, c4, c5] = [c0, c1, c2, c3, c4, c5] := by
  have hrh : removeFirstHash [c0, c1, c2, c3, c4, c5] = [c0, c1, c2, c3, c4, c5] :=
    removeFirstHash_eq_self _ (fun c hc => (h c hc).2)
  have htr : trimJS [c0, c1, c2, c3, c4, c5] = [c0, c1, c2, c3, c4, c5] :=
    trimJS_eq_self _ (fun c hc => (h c hc).1)
  unfold normalizeHex
  rw [hrh, htr]
  rfl

/-- `parseInt16` on exactly two hexadecimal digits returns their value. -/
lemma parseInt16_two_hex (c0 c1 : Char) (v0 v1 : Nat)
    (h0 : hexDigitVal c0 = some v0) (h1 : hexDigitVal c1 = some v1) :
    parseInt16 [c0, c1] = some ((16 * v0 + v1 : Nat) : Int) := by
  obtain ⟨hw0, hh0, hm0, hp0, hx0, hX0, hs0⟩ := hexDigit_char_facts c0 v0 h0
  obtain ⟨hw1, hh1, hm1, hp1, hx1, hX1, hs1⟩ := hexDigit_char_facts c1 v1 h1
  have hdrop : ([c0, c1].dropWhile isWs) = [c0, c1] :=
    dropWhile_eq_self_of_false isWs [c0, c1] (by
      intro c hc
      simp only [List.mem_cons, List.not_mem_nil, or_false] at hc
      rcases hc with rfl | rfl
      · exact hw0
      · exact hw1)
  have hsign : parseSign [c0, c1] = 1 := by
    simp [parseSign, hm0]
  have hstrip : stripSign [c0, c1] = [c0, c1] := by
    simp [stripSign, hm0, hp0]
  have h0x : strip0x [c0, c1] = [c0, c1] := by
    simp [strip0x, hx1, hX1]
  have htake : takeHexDigits [c0, c1] = [c0, c1] := by
    simp [takeHexDigits, hs0, hs1]
  unfold parseInt16
  rw [hdrop, hstrip, h0x, htake, hsign]
  rw [if_neg (by simp)]
  congr 1
  unfold hexValue
  simp only [List.foldl_cons, List.foldl_nil, h0, h1, Option.getD_some]
  push_cast
  ring

/-- Channel parses of a six-hex-digit string. -/
lemma chan_six (c0 c1 c2 c3 c4 c5 : Char) (v0 v1 v2 v3 v4 v5 : Nat)
    (h0 : hexDigitVal c0 = some v0) (h1 : hexDigitVal c1 = some v1)
    (h2 : hexDigitVal c2 = some v2) (h3 : hexDigitVal c3 = some v3)
    (h4 : hexDigitVal c4 = some v4) (h5 : hexDigitVal c5 = some v5) :
    normalizeHex [c0, c1, c2, c3, c4, c5] = [c0, c1, c2, c3, c4, c5] ∧
    chanR [c0, c1, c2, c3, c4, c5] = some ((16 * v0 + v1 : Nat) : Int) ∧
    chanG [c0, c1, c2, c3, c4, c5] = some ((16 * v2 + v3 : Nat) : Int) ∧
    chanB [c0, c1, c2, c3, c4, c5] = some ((16 * v4 + v5 : Nat) : Int) := by
  have hn : normalizeHex [c0, c1, c2, c3, c4, c5] = [c0, c1, c2, c3, c4, c5] := by
    apply normalizeHex_six
    intro c hc
    simp only [List.mem_cons, List.not_mem_nil, or_false] at hc
    rcases hc with rfl | rfl | rfl | rfl | rfl | rfl
    · exact ⟨(hexDigit_char_facts _ _ h0).1, (hexDigit_char_facts _ _ h0).2.1⟩
    · exact ⟨(hexDigit_char_facts _ _ h1).1, (hexDigit_char_facts _ _ h1).2.1⟩
    · exact ⟨(hexDigit_char_facts _ _ h2).1, (hexDigit_char_facts _ _ h2).2.1⟩
    · exact ⟨(hexDigit_char_facts _ _ h3).1, (hexDigit_char_facts _ _ h3).2.1⟩
    · exact ⟨(hexDigit_char_facts _ _ h4).1, (hexDigit_char_facts _ _ h4).2.1⟩
    · exact ⟨(hexDigit_char_facts _ _ h5).1, (hexDigit_char_facts _ _ h5).2.1⟩
  refine ⟨hn, ?_, ?_, ?_⟩
  · unfold chanR
    rw [hn]
    have e : substringJS [c0, c1, c2, c3, c4, c5] 0 2 = [c0, c1] := rfl
    rw [e]
    exact parseInt16_two_hex c0 c1 v0 v1 h0 h1
  · unfold chanG
    rw [hn]
    have e : substringJS [c0, c1, c2, c3, c4, c5] 2 4 = [c2, c3] := rfl
    rw [e]
    exact parseInt16_two_hex c2 c3 v2 v3 h2 h3
  · unfold chanB
    rw [hn]
    have e : substringJS [c0, c1, c2, c3, c4, c5] 4 6 = [c4, c5] := rfl
    rw [e]
    exact parseInt16_two_hex c4 c5 v4 v5 h4 h5

/-- `cleanHex` on a six-hex-digit string: snap to white, snap to black, or
return the string itself. -/
lemma cleanHex_hex6 (c0 c1 c2 c3 c4 c5 : Char) (v0 v1 v2 v3 v4 v5 : Nat)
    (h0 : hexDigitVal c0 = some v0) (h1 : hexDigitVal c1 = some v1)
    (h2 : hexDigitVal c2 = some v2) (h3 : hexDigitVal c3 = some v3)
    (h4 : hexDigitVal c4 = some v4) (h5 : hexDigitVal c5 = some v5) :
    cleanHex (some [c0, c1, c2, c3, c4, c5]) =
      if 240 < ((16 * v0 + v1 : Nat) : Int) ∧ 240 < ((16 * v2 + v3 : Nat) : Int) ∧
          240 < ((16 * v4 + v5 : Nat) : Int) then "FFFFFF".toList
      else if ((16 * v0 + v1 : Nat) : Int) < 15 ∧ ((16 * v2 + v3 : Nat) : Int) < 15 ∧
          ((16 * v4 + v5 : Nat) : Int) < 15 then "000000".toList
      else [c0, c1, c2, c3, c4, c5] := by
  obtain ⟨hn, hR, hG, hB⟩ := chan_six c0 c1 c2 c3 c4 c5 v0 v1 v2 v3 v4 v5 h0 h1 h2 h3 h4 h5
  simp only [cleanHex]
  rw [if_neg (by simp), if_neg (by simp [hR, hG, hB]), hR, hG, hB, hn]
  simp only [Option.getD_some]

/-- Claim C9: `cleanHex` is idempotent on 6-digit hexadecimal strings (the
already-normalized colors), and the 3-digit shorthand `abc` resolves exactly
like `aabbcc`. -/
theorem c9_resolveColor_idempotent (c0 c1 c2 c3 c4 c5 : Char) (v0 v1 v2 v3 v4 v5 : Nat)
    (h0 : hexDigitVal c0 = some v0) (h1 : hexDigitVal c1 = some v1)
    (h2 : hexDigitVal c2 = some v2) (h3 : hexDigitVal c3 = some v3)
    (h4 : hexDigitVal c4 = some v4) (h5 : hexDigitVal c5 = some v5) :
    cleanHex (some (cleanHex (some [c0, c1, c2, c3, c4, c5]))) =
      cleanHex (some [c0, c1, c2, c3, c4, c5]) ∧
    cleanHex (some "abc".toList) = cleanHex (some "aabbcc".toList) := by
  have key := cleanHex_hex6 c0 c1 c2 c3 c4 c5 v0 v1 v2 v3 v4 v5 h0 h1 h2 h3 h4 h5
  refine ⟨?_, by decide⟩
  by_cases hb : 240 < ((16 * v0 + v1 : Nat) : Int) ∧ 240 < ((16 * v2 + v3 : Nat) : Int) ∧
      240 < ((16 * v4 + v5 : Nat) : Int)
  · rw [key, if_pos hb]
    decide
  · by_cases hd : ((16 * v0 + v1 : Nat) : Int) < 15 ∧ ((16 * v2 + v3 : Nat) : Int) < 15 ∧
        ((16 * v4 + v5 : Nat) : Int) < 15
    · rw [key, if_neg hb, if_pos hd]
      decide
    · rw [key, if_neg hb, if_neg hd]
      rw [key, if_neg hb, if_neg hd]

/-- Claim C9 witness: idempotence at the mixed-case 6-digit hex `1A2B3C`. -/
theorem c9_resolveColor_idempotent_witness :
    cleanHex (some (cleanHex (some ['1', 'A', '2', 'B', '3', 'C']))) =
      cleanHex (some ['1', 'A', '2', 'B', '3', 'C']) ∧
    cleanHex (some "abc".toList) = cleanHex (some "aabbcc".toList) :=
  c9_resolveColor_idempotent '1' 'A' '2' 'B' '3' 'C' 1 10 2 11 3 12
    (by decide) (by decide) (by decide) (by decide) (by decide) (by decide)

/-- Claim C1 (amended): the canvas layout of a batch is computed once from
the FIRST valid image and shared by every slide: whenever the validity filter
yields `first :: rest`, the output presentation has width 10, height
`computeCanvasHeight first.width first.height`, and one slide per remaining
image with an element list, each a pure function of that image's own elements
and the shared first-image canvas. -/
theorem c1_layout_from_first (imgs : List ProcessedImage) (first : ProcessedImage)
    (rest : List ProcessedImage) (hv : imgs.filter isValidImage = first :: rest) :
    generatePPT imgs = some ⟨SLIDE_WIDTH_IN,
      computeCanvasHeight first.width first.height,
      ((first :: rest).filterMap (fun i => i.elements)).map
        (generateSlide SLIDE_WIDTH_IN (computeCanvasHeight first.width first.height))⟩ := by
  unfold generatePPT
  rw [hv]

/-- Claim C1 (amended) witness: a single valid square image. -/
theorem c1_layout_from_first_witness :
    generatePPT [imgSquare] = some ⟨SLIDE_WIDTH_IN,
      computeCanvasHeight imgSquare.width imgSquare.height,
      ([imgSquare].filterMap (fun i => i.elements)).map
        (generateSlide SLIDE_WIDTH_IN (computeCanvasHeight imgSquare.width imgSquare.height))⟩ :=
  c1_layout_from_first [imgSquare] imgSquare [] (by decide)

/-- Claim C1 counterexample: in the batch `[imgHalf, imgSquare]` the canvas
height used for `imgSquare` is 5 (from the first image's 2:1 aspect ratio),
not the 10 its own 1:1 aspect ratio dictates, and replacing the first image
by `imgQuarter` changes `imgSquare`'s slide even though `imgSquare` itself is
unchanged. -/
theorem c1_counterexample :
    (generatePPT [imgHalf, imgSquare]).map Pptx.layoutH = some 5 ∧
    computeCanvasHeight imgSquare.width imgSquare.height = 10 ∧
    (generatePPT [imgHalf, imgSquare]).map (fun p => p.slides[1]?) =
      some (some (generateSlide 10 5 [sampleElement])) ∧
    (generatePPT [imgQuarter, imgSquare]).map (fun p => p.slides[1]?) =
      some (some (generateSlide 10 (5 / 2) [sampleElement])) ∧
    generateSlide 10 5 [sampleElement] ≠ generateSlide 10 (5 / 2) [sampleElement] := by
  have hf1 : [imgHalf, imgSquare].filter isValidImage = [imgHalf, imgSquare] := by decide
  have hf2 : [imgQuarter, imgSquare].filter isValidImage = [imgQuarter, imgSquare] := by decide
  have hH1 : computeCanvasHeight (2 : ℚ) 1 = 5 := by
    norm_num [computeCanvasHeight, SLIDE_WIDTH_IN]
  have hH2 : computeCanvasHeight (4 : ℚ) 1 = 5 / 2 := by
    norm_num [computeCanvasHeight, SLIDE_WIDTH_IN]
  refine ⟨?_, ?_, ?_, ?_, ?_⟩
  · unfold generatePPT
    rw [hf1]
    simp [imgHalf, hH1]
  · norm_num [computeCanvasHeight, SLIDE_WIDTH_IN, imgSquare]
  · unfold generatePPT
    rw [hf1]
    simp [imgHalf, imgSquare, hH1, SLIDE_WIDTH_IN]
  · unfold generatePPT
    rw [hf2]
    simp [imgQuarter, imgSquare, hH2, SLIDE_WIDTH_IN]
  · intro heq
    have hbg := congrArg (fun l => l.head?) heq
    simp only [generateSlide, List.foldl_cons, List.foldl_nil, List.singleton_append,
      List.head?_cons, Option.some.injEq] at hbg
    have h55 : (5 : ℚ) ≠ 5 / 2 := by norm_num
    rw [SlideObject.background.injEq] at hbg
    exact h55 hbg.2

/-- Claim C2 (amended): an image whose width or height is zero is silently
excluded by the validity filter, aborting only that image's reconstruction;
negative dimensions are not rejected (see the counterexample); for nonzero
inputs the canvas height is width-over-aspect, `10·h/w`, so 1920 × 1080
yields exactly 45/8. -/
theorem c2_canvas_zero_excluded (i : ProcessedImage) (pre post : List ProcessedImage)
    (w h : ℚ) (hzero : i.width = 0 ∨ i.height = 0) (hw : 0 < w) (hh : 0 < h) :
    generatePPT (pre ++ i :: post) = generatePPT (pre ++ post) ∧
    computeCanvasHeight w h = SLIDE_WIDTH_IN * h / w ∧
    computeCanvasHeight 1920 1080 = 45 / 8 := by
  have hnv : isValidImage i = false := by
    rcases hzero with h0 | h0 <;> simp [isValidImage, h0]
  refine ⟨?_, ?_, ?_⟩
  · have hfilter : (pre ++ i :: post).filter isValidImage =
        (pre ++ post).filter isValidImage := by
      simp [List.filter_append, List.filter_cons, hnv]
    unfold generatePPT
    rw [hfilter]
  · unfold computeCanvasHeight
    rw [div_div_eq_mul_div]
  · norm_num [computeCanvasHeight, SLIDE_WIDTH_IN]

/-- Claim C2 (amended) witness: a zero-width image in front of a valid one is
dropped without affecting the valid image, and the 1920 × 1080 canvas height
is 45/8. -/
theorem c2_canvas_zero_excluded_witness :
    generatePPT ([] ++ imgZeroWidth :: [imgSquare]) = generatePPT ([] ++ [imgSquare]) ∧
    computeCanvasHeight 1920 1080 = SLIDE_WIDTH_IN * 1080 / 1920 ∧
    computeCanvasHeight 1920 1080 = 45 / 8 :=
  c2_canvas_zero_excluded imgZeroWidth [] [imgSquare] 1920 1080 (Or.inl (by decide))
    (by decide) (by decide)

/-- Claim C2 counterexample: a negative width is NOT rejected: the image with
width −1920 passes the validity filter and produces a slide on a canvas of
height −45/8 instead of failing. -/
theorem c2_counterexample :
    isValidImage imgNegWidth = true ∧
    (generatePPT [imgNegWidth]).map Pptx.layoutH = some (-(45 / 8)) ∧
    (generatePPT [imgNegWidth]).map (fun p => p.slides.length) = some 1 := by
  have hf : [imgNegWidth].filter isValidImage = [imgNegWidth] := by decide
  have hH : computeCanvasHeight (-1920 : ℚ) 1080 = -(45 / 8) := by
    norm_num [computeCanvasHeight, SLIDE_WIDTH_IN]
  refine ⟨by decide, ?_, ?_⟩
  · unfold generatePPT
    rw [hf]
    simp [imgNegWidth, hH]
  · unfold generatePPT
    rw [hf]
    simp [imgNegWidth]
